import Mathlib

/-!
# DNS server codec: shallow embedding and verification

A shallow embedding of the Go DNS server's header/section codec and its
request/response pipeline, together with theorems settling the specified
properties against the embedded code.

Byte strings (`string` / `[]byte` in the source) are modelled as `List Nat`
with each element a byte value below 256.  Go machine integers (`uint8`,
`uint16`, `uint32`) are modelled as `Nat`, with explicit `% 2^w` reductions
exactly where Go's fixed-width arithmetic truncates.  A Go runtime panic
(out-of-range slice) is modelled by `Option`: `none` means the corresponding
Go code panics; the embedded functions return `some` exactly on the inputs
where the Go code runs to completion.
-/

namespace DNS

/-- Result codes, from the Go `ResultCode` enumeration (`iota` values 0..5). -/
inductive ResultCode where
  | NOERROR
  | FORMERR
  | SERVFAIL
  | NXDOMAIN
  | NOTIMP
  | REFUSED
deriving DecidableEq, Repr, Fintype

/-- The numeric value of a result code, as produced by Go's
`uint16(header.Rescode)` conversion of the `iota`-assigned constants. -/
def ResultCode.toNat : ResultCode → Nat
  | .NOERROR  => 0
  | .FORMERR  => 1
  | .SERVFAIL => 2
  | .NXDOMAIN => 3
  | .NOTIMP   => 4
  | .REFUSED  => 5

/-- The Go `DNSHeader` struct.  Field order and names follow the source. -/
structure DNSHeader where
  Id : Nat
  Recursion_desired : Bool
  Truncated_message : Bool
  Authoritative_answer : Bool
  Opcode : Nat
  Response : Bool
  Rescode : ResultCode
  Checking_disabled : Bool
  Authed_data : Bool
  Z : Bool
  Recursion_available : Bool
  Questions : Nat
  Answers : Nat
  Authoritative_entries : Nat
  Resource_entries : Nat
deriving DecidableEq, Repr

/-- The Go `NewDNSHeader` constructor: the all-zero / all-false header. -/
def NewDNSHeader : DNSHeader where
  Id := 0
  Response := false
  Opcode := 0
  Authoritative_answer := false
  Truncated_message := false
  Recursion_desired := false
  Recursion_available := false
  Z := false
  Rescode := .NOERROR
  Questions := 0
  Answers := 0
  Authoritative_entries := 0
  Resource_entries := 0
  Checking_disabled := false
  Authed_data := false

/-- The Go `Question` struct.  `Name` is the raw wire-format byte string the
source stores in a Go `string`. -/
structure Question where
  Name : List Nat
  «Type» : Nat
  Class : Nat
deriving DecidableEq, Repr

/-- The Go `Record` struct. -/
structure Record where
  Name : List Nat
  «Type» : Nat
  Class : Nat
  TTL : Nat
  Len : Nat
  Data : List Nat
deriving DecidableEq, Repr

/-- A valid byte string: every element is a byte value. -/
def byteString (bs : List Nat) : Prop := ∀ b ∈ bs, b < 256

instance : DecidablePred byteString := fun bs =>
  inferInstanceAs (Decidable (∀ b ∈ bs, b < 256))

/-- Go's `binary.BigEndian.Uint16(bd[i : i+2])`: reads two bytes big-endian.
Returns `none` when the slice `bd[i : i+2]` is out of range, which in Go is a
runtime panic. -/
def bigEndianUint16 (bd : List Nat) (i : Nat) : Option Nat :=
  if i + 2 ≤ bd.length then some (bd.getD i 0 * 256 + bd.getD (i + 1) 0) else none

/-- Go's `binary.BigEndian.PutUint16` / `binary.Write` of a `uint16`: the two
big-endian bytes of `v` (reduced mod 2^16, as the `uint16` argument type
forces). -/
def PutUint16 (v : Nat) : List Nat := [v / 256 % 256, v % 256]

/-- Go's `binary.Write` of a `uint32`: the four big-endian bytes of `v`
(reduced mod 2^32). -/
def PutUint32 (v : Nat) : List Nat :=
  [v / 16777216 % 256, v / 65536 % 256, v / 256 % 256, v % 256]

/-- The Go `parseHeader` function (embedded from the source, including its
reading of both `Questions` and `Answers` from `bd[4:6]` and its forcing of
the response-side flag fields).  `none` models the Go panic raised when a
slice index is out of range. -/
def parseHeader (data : List Nat) : Option DNSHeader := do
  let hid ← bigEndianUint16 data 0
  let hquestions ← bigEndianUint16 data 4
  let hanswers ← bigEndianUint16 data 4
  let flags ← bigEndianUint16 data 2
  some { NewDNSHeader with
    Id := hid
    Questions := hquestions
    Answers := hanswers
    Response := true
    Authoritative_answer := false
    Truncated_message := false
    Opcode := (flags &&& 0x7800) >>> 11
    Recursion_desired := decide ((flags &&& 0x0100) ≠ 0)
    Recursion_available := false
    Z := false
    Rescode := .NOTIMP }

/-- The Go `BuildFlags` function.  Each `flags |= ...` step is mirrored in
order; the opcode shift is truncated to 16 bits as Go `uint16` arithmetic
does.  Note the source places `Z` at bit 4 (`uint16(1) << 4`). -/
def BuildFlags (header : DNSHeader) : Nat :=
  let flags : Nat := 0
  let flags := if header.Response then flags ||| 0x8000 else flags
  let flags := flags ||| ((header.Opcode % 256) <<< 11) % 65536
  let flags := if header.Authoritative_answer then flags ||| 0x0400 else flags
  let flags := if header.Truncated_message then flags ||| 0x0200 else flags
  let flags := if header.Recursion_desired then flags ||| 0x0100 else flags
  let flags := if header.Recursion_available then flags ||| 0x0080 else flags
  let flags := if header.Z = true then flags ||| (1 <<< 4) else flags ||| (0 <<< 4)
  let flags := flags ||| header.Rescode.toNat
  flags

/-- The Go `BuildHeader` function: a 12-byte buffer with `Id`, the flags
word, `Questions` and `Answers` written big-endian at offsets 0, 2, 4, 6;
bytes 8..12 are never written and stay zero. -/
def BuildHeader (header : DNSHeader) : List Nat :=
  PutUint16 header.Id ++ PutUint16 (BuildFlags header) ++
    PutUint16 header.Questions ++ PutUint16 header.Answers ++ [0, 0, 0, 0]

/-- The Go `BuildQuestion` function: name bytes, then type and class as
big-endian `uint16`. -/
def BuildQuestion (question : Question) : List Nat :=
  question.Name ++ PutUint16 question.«Type» ++ PutUint16 question.Class

/-- The Go `BuildAnswer` function: name bytes, type, class, TTL, declared
length, then the raw data bytes.  No check relates `r.Len` to `r.Data`. -/
def BuildAnswer (r : Record) : List Nat :=
  r.Name ++ PutUint16 r.«Type» ++ PutUint16 r.Class ++ PutUint32 r.TTL ++
    PutUint16 r.Len ++ r.Data

/-- The wire-format name `"\x0ccodecrafters\x02io\x00"` used by the fixed
question and answer. -/
def codecraftersName : List Nat :=
  [0x0c, 99, 111, 100, 101, 99, 114, 97, 102, 116, 101, 114, 115, 0x02,
   105, 111, 0x00]

/-- The fixed question the pipeline appends to every response. -/
def fixedQuestion : Question where
  Name := codecraftersName
  «Type» := 1
  Class := 1

/-- The fixed A record the pipeline appends to every response: TTL 60,
declared length 4, data `8.8.8.8`. -/
def fixedAnswer : Record where
  Name := codecraftersName
  «Type» := 1
  Class := 1
  TTL := 60
  Len := 4
  Data := [8, 8, 8, 8]

/-- The Go `HandleReceivedData` function (current version): parse the
request header, rebuild it, then append the fixed question and the fixed
answer.  `none` models the panic propagated out of `parseHeader`. -/
def HandleReceivedData (data : List Nat) : Option (List Nat) := do
  let header ← parseHeader data
  let buf := BuildHeader header
  let buf := buf ++ BuildQuestion fixedQuestion
  let buf := buf ++ BuildAnswer fixedAnswer
  some buf

/-- A header representable by the Go struct's field types and the spec's
4-bit opcode: `Id`, `Questions`, `Answers` fit in `uint16`, the count fields
never written fit in `uint16`, and `Opcode` fits in its 4-bit slot. -/
def wfHeader (h : DNSHeader) : Prop :=
  h.Id < 65536 ∧ h.Opcode < 16 ∧ h.Questions < 65536 ∧ h.Answers < 65536 ∧
    h.Authoritative_entries < 65536 ∧ h.Resource_entries < 65536

instance : DecidablePred wfHeader := fun h => by
  unfold wfHeader; infer_instance

/-! ### Concrete inputs used by the scenario claims -/

/-- The scenario header bytes `[0x04,0xD2, 0x01,0x00, 0x00,0x01, 0x00,0x00,
0x00,0x00, 0x00,0x00]`. -/
def c5Bytes : List Nat := [0x04, 0xD2, 0x01, 0x00, 0x00, 0x01, 0, 0, 0, 0, 0, 0]

/-- The header the embedded decoder actually produces on `c5Bytes`. -/
def c5Decoded : DNSHeader :=
  { NewDNSHeader with
    Id := 1234
    Response := true
    Recursion_desired := true
    Questions := 1
    Answers := 1
    Rescode := .NOTIMP }

/-- A 12-byte request whose four count fields are 1, 2, 3, 4. -/
def c4Input : List Nat := [0, 0, 0, 0, 0, 1, 0, 2, 0, 3, 0, 4]

/-- A record whose declared length 5 disagrees with its 4 data bytes. -/
def mismatchedRecord : Record where
  Name := codecraftersName
  «Type» := 1
  Class := 1
  TTL := 60
  Len := 5
  Data := [8, 8, 8, 8]

/-- A 12-byte all-zero request (all four count fields are 0). -/
def zeroRequest : List Nat := List.replicate 12 0

/-- A sample header inside the decoder's image, for witnesses. -/
def c1SampleHeader : DNSHeader :=
  { NewDNSHeader with
    Id := 1234
    Response := true
    Recursion_desired := true
    Opcode := 5
    Questions := 7
    Answers := 7
    Rescode := .NOTIMP }

/-- A sample header exercising QR, RD, Z, a nonzero opcode and result code. -/
def flagsSampleHeader : DNSHeader :=
  { NewDNSHeader with
    Response := true
    Recursion_desired := true
    Z := true
    Opcode := 9
    Rescode := .REFUSED }

/-! ### Helper lemmas -/

/-- On any buffer of at least 6 bytes, `parseHeader` succeeds and its result
is determined byte by byte. -/
theorem parseHeader_eq_of_six_le (data : List Nat) (h6 : 6 ≤ data.length) :
    parseHeader data = some
      { NewDNSHeader with
        Id := data.getD 0 0 * 256 + data.getD 1 0
        Questions := data.getD 4 0 * 256 + data.getD 5 0
        Answers := data.getD 4 0 * 256 + data.getD 5 0
        Response := true
        Opcode := ((data.getD 2 0 * 256 + data.getD 3 0) &&& 0x7800) >>> 11
        Recursion_desired :=
          decide ((data.getD 2 0 * 256 + data.getD 3 0) &&& 0x0100 ≠ 0)
        Rescode := .NOTIMP } := by
  simp only [parseHeader, bigEndianUint16,
    if_pos (show 0 + 2 ≤ data.length by omega),
    if_pos (show 4 + 2 ≤ data.length by omega),
    if_pos (show 2 + 2 ≤ data.length by omega)]
  rfl

/-- `parseHeader` succeeds exactly on buffers of at least 6 bytes. -/
theorem parseHeader_isSome_iff (data : List Nat) :
    (parseHeader data).isSome ↔ 6 ≤ data.length := by
  constructor
  · intro h
    by_contra h6
    push_neg at h6
    rcases le_or_lt 2 data.length with h2 | h2
    · simp only [parseHeader, bigEndianUint16,
        if_pos (show 0 + 2 ≤ data.length by omega),
        if_neg (show ¬ 4 + 2 ≤ data.length by omega)] at h
      simp at h
    · simp only [parseHeader, bigEndianUint16,
        if_neg (show ¬ 0 + 2 ≤ data.length by omega)] at h
      simp at h
  · intro h6
    rw [parseHeader_eq_of_six_le data h6]
    rfl

/-- If the pipeline produces a response, the request header decoded and the
response is that header re-encoded followed by the fixed body. -/
theorem handleReceivedData_eq_some (data resp : List Nat)
    (hresp : HandleReceivedData data = some resp) :
    ∃ h, parseHeader data = some h ∧
      resp = BuildHeader h ++ (BuildQuestion fixedQuestion ++ BuildAnswer fixedAnswer) := by
  unfold HandleReceivedData at hresp
  cases hph : parseHeader data with
  | none => rw [hph] at hresp; simp at hresp
  | some h =>
      rw [hph] at hresp
      simp at hresp
      exact ⟨h, rfl, hresp.symm⟩

/-- The 12 bytes of `BuildHeader`, written out. -/
theorem buildHeader_eq (h : DNSHeader) :
    BuildHeader h =
      [h.Id / 256 % 256, h.Id % 256,
       BuildFlags h / 256 % 256, BuildFlags h % 256,
       h.Questions / 256 % 256, h.Questions % 256,
       h.Answers / 256 % 256, h.Answers % 256, 0, 0, 0, 0] := by
  simp [BuildHeader, PutUint16]

/-- `BuildHeader` always emits 12 bytes. -/
theorem buildHeader_length (h : DNSHeader) : (BuildHeader h).length = 12 := by
  rw [buildHeader_eq]; rfl

set_option maxHeartbeats 1000000 in
/-- Bit layout of `BuildFlags`, checked over the whole finite domain of the
fields it reads (4-bit opcode, the six boolean flags, the result code). -/
theorem buildFlags_layout_aux :
    ∀ (op : Fin 16) (resp aa tc rd ra z : Bool) (rc : ResultCode),
      (BuildFlags ⟨0, rd, tc, aa, op.val, resp, rc, false, false, z, ra, 0, 0, 0, 0⟩).testBit 15 = resp ∧
      (BuildFlags ⟨0, rd, tc, aa, op.val, resp, rc, false, false, z, ra, 0, 0, 0, 0⟩) >>> 11 &&& 15 = op.val ∧
      (BuildFlags ⟨0, rd, tc, aa, op.val, resp, rc, false, false, z, ra, 0, 0, 0, 0⟩).testBit 10 = aa ∧
      (BuildFlags ⟨0, rd, tc, aa, op.val, resp, rc, false, false, z, ra, 0, 0, 0, 0⟩).testBit 9 = tc ∧
      (BuildFlags ⟨0, rd, tc, aa, op.val, resp, rc, false, false, z, ra, 0, 0, 0, 0⟩).testBit 8 = rd ∧
      (BuildFlags ⟨0, rd, tc, aa, op.val, resp, rc, false, false, z, ra, 0, 0, 0, 0⟩).testBit 7 = ra ∧
      (BuildFlags ⟨0, rd, tc, aa, op.val, resp, rc, false, false, z, ra, 0, 0, 0, 0⟩).testBit 4 = z ∧
      (BuildFlags ⟨0, rd, tc, aa, op.val, resp, rc, false, false, z, ra, 0, 0, 0, 0⟩) &&& 15 = rc.toNat ∧
      (BuildFlags ⟨0, rd, tc, aa, op.val, resp, rc, false, false, z, ra, 0, 0, 0, 0⟩).testBit 5 = false ∧
      (BuildFlags ⟨0, rd, tc, aa, op.val, resp, rc, false, false, z, ra, 0, 0, 0, 0⟩).testBit 6 = false := by
  decide

/-- Big-endian byte split/reassembly cancels on 16-bit values. -/
theorem be16_split_reassemble (v : Nat) (hv : v < 65536) :
    v / 256 % 256 * 256 + v % 256 = v := by omega

/-- Elements read with `getD` from a byte string are bytes. -/
theorem byteString_getD_lt (data : List Nat) (hbytes : byteString data)
    (i : Nat) (hi : i < data.length) : data.getD i 0 < 256 := by
  rw [List.getD_eq_getElem data 0 hi]
  exact hbytes _ (List.getElem_mem hi)

/-- Round-trip of `parseHeader` after `BuildHeader` on the decoder's image,
stated over the scalar fields. -/
theorem parse_build_c1 (Id op q : Nat) (rd : Bool)
    (hid : Id < 65536) (hop : op < 16) (hq : q < 65536) :
    parseHeader (BuildHeader ⟨Id, rd, false, false, op, true, .NOTIMP, false, false, false, false, q, q, 0, 0⟩) =
      some ⟨Id, rd, false, false, op, true, .NOTIMP, false, false, false, false, q, q, 0, 0⟩ := by
  have hBF : BuildFlags ⟨Id, rd, false, false, op, true, .NOTIMP, false, false, false, false, q, q, 0, 0⟩
      = BuildFlags ⟨0, rd, false, false, op, true, .NOTIMP, false, false, false, false, 0, 0, 0, 0⟩ := rfl
  rw [buildHeader_eq, hBF, parseHeader_eq_of_six_le _ (by simp)]
  rw [Option.some.injEq, DNSHeader.mk.injEq]
  refine ⟨?_, ?_, rfl, rfl, ?_, rfl, rfl, rfl, rfl, rfl, rfl, ?_, ?_, rfl, rfl⟩
  · show Id / 256 % 256 * 256 + Id % 256 = Id
    omega
  · show decide ((BuildFlags ⟨0, rd, false, false, op, true, .NOTIMP, false, false, false, false, 0, 0, 0, 0⟩ / 256 % 256 * 256 +
        BuildFlags ⟨0, rd, false, false, op, true, .NOTIMP, false, false, false, false, 0, 0, 0, 0⟩ % 256) &&& 256 ≠ 0) = rd
    cases rd <;> interval_cases op <;> decide
  · show ((BuildFlags ⟨0, rd, false, false, op, true, .NOTIMP, false, false, false, false, 0, 0, 0, 0⟩ / 256 % 256 * 256 +
        BuildFlags ⟨0, rd, false, false, op, true, .NOTIMP, false, false, false, false, 0, 0, 0, 0⟩ % 256) &&& 30720) >>> 11 = op
    cases rd <;> interval_cases op <;> decide
  · show q / 256 % 256 * 256 + q % 256 = q
    omega
  · show q / 256 % 256 * 256 + q % 256 = q
    omega

/-- The first two response bytes are the big-endian split of the header's
(16-bit) ID. -/
theorem bigEndianUint16_buildHeader_append_0 (h : DNSHeader) (t : List Nat) :
    bigEndianUint16 (BuildHeader h ++ t) 0 =
      some (h.Id / 256 % 256 * 256 + h.Id % 256) := by
  rw [buildHeader_eq]
  unfold bigEndianUint16
  rw [if_pos (by simp)]
  rfl

/-- Bytes 4..6 of an encoded header carry the Questions count. -/
theorem bigEndianUint16_buildHeader_append_4 (h : DNSHeader) (t : List Nat) :
    bigEndianUint16 (BuildHeader h ++ t) 4 =
      some (h.Questions / 256 % 256 * 256 + h.Questions % 256) := by
  rw [buildHeader_eq]
  unfold bigEndianUint16
  rw [if_pos (by simp)]
  rfl

/-- Bytes 6..8 of an encoded header carry the Answers count. -/
theorem bigEndianUint16_buildHeader_append_6 (h : DNSHeader) (t : List Nat) :
    bigEndianUint16 (BuildHeader h ++ t) 6 =
      some (h.Answers / 256 % 256 * 256 + h.Answers % 256) := by
  rw [buildHeader_eq]
  unfold bigEndianUint16
  rw [if_pos (by simp)]
  rfl

set_option maxRecDepth 4000 in
/-- Bytes 8..10 of an encoded header are always zero. -/
theorem bigEndianUint16_buildHeader_append_8 (h : DNSHeader) (t : List Nat) :
    bigEndianUint16 (BuildHeader h ++ t) 8 = some 0 := by
  rw [buildHeader_eq]
  unfold bigEndianUint16
  rw [if_pos (by simp)]
  rfl

set_option maxRecDepth 4000 in
/-- Bytes 10..12 of an encoded header are always zero. -/
theorem bigEndianUint16_buildHeader_append_10 (h : DNSHeader) (t : List Nat) :
    bigEndianUint16 (BuildHeader h ++ t) 10 = some 0 := by
  rw [buildHeader_eq]
  unfold bigEndianUint16
  rw [if_pos (by simp)]
  rfl

/-! ### Claim theorems -/

/-- C2, counterexample.  The claim says an 8-byte buffer makes header decode
fail with `TruncatedHeader` and that decode never reads out of bounds.  In the
code, an 8-byte buffer decodes successfully (only bytes 0..6 are ever read),
and a 3-byte buffer reaches the out-of-range slice `bd[4:6]`, a Go panic
(modelled as `none`). -/
theorem C2_counterexample :
    (parseHeader (List.replicate 8 0)).isSome = true ∧ parseHeader [0, 0, 0] = none := by
  decide

/-- C2, amended.  The embedded decode has no `TruncatedHeader` failure mode:
it succeeds on exactly the buffers of at least 6 bytes, and on shorter
buffers it hits an out-of-range slice read (a runtime panic, modelled as
`none`) rather than returning an error value. -/
theorem C2_parseHeader_succeeds_iff (data : List Nat) :
    (parseHeader data).isSome ↔ 6 ≤ data.length :=
  parseHeader_isSome_iff data

/-- C3, counterexample.  The claim places `Z` at bit 6 of the flags word and
requires bits 4-5 to be zero; but encoding a header with `Z := true` leaves
bit 6 clear and sets bit 4. -/
theorem C3_counterexample :
    (BuildFlags { NewDNSHeader with Z := true }).testBit 6 = false ∧
      (BuildFlags { NewDNSHeader with Z := true }).testBit 4 = true := by
  decide

/-- C3, amended.  For every header whose opcode fits its 4-bit slot, the
flags word has QR at bit 15, Opcode in bits 14-11, AA at bit 10, TC at
bit 9, RD at bit 8, RA at bit 7, Z at bit 4 (not bit 6), RCODE in bits 3-0,
and bits 5 and 6 always zero. -/
theorem C3_flags_bit_layout (h : DNSHeader) (hop : h.Opcode < 16) :
    (BuildFlags h).testBit 15 = h.Response ∧
    (BuildFlags h) >>> 11 &&& 15 = h.Opcode ∧
    (BuildFlags h).testBit 10 = h.Authoritative_answer ∧
    (BuildFlags h).testBit 9 = h.Truncated_message ∧
    (BuildFlags h).testBit 8 = h.Recursion_desired ∧
    (BuildFlags h).testBit 7 = h.Recursion_available ∧
    (BuildFlags h).testBit 4 = h.Z ∧
    (BuildFlags h) &&& 15 = h.Rescode.toNat ∧
    (BuildFlags h).testBit 5 = false ∧
    (BuildFlags h).testBit 6 = false := by
  obtain ⟨Id, rd, tc, aa, op, resp, rc, cd, ad, z, ra, q, a, ae, re⟩ := h
  exact buildFlags_layout_aux ⟨op, hop⟩ resp aa tc rd ra z rc

/-- C3, witness: the amended layout at a concrete header with QR, RD and Z
set, opcode 9 and result code REFUSED. -/
theorem C3_flags_bit_layout_witness :
    (BuildFlags flagsSampleHeader).testBit 15 = true ∧
    (BuildFlags flagsSampleHeader) >>> 11 &&& 15 = 9 ∧
    (BuildFlags flagsSampleHeader).testBit 10 = false ∧
    (BuildFlags flagsSampleHeader).testBit 9 = false ∧
    (BuildFlags flagsSampleHeader).testBit 8 = true ∧
    (BuildFlags flagsSampleHeader).testBit 7 = false ∧
    (BuildFlags flagsSampleHeader).testBit 4 = true ∧
    (BuildFlags flagsSampleHeader) &&& 15 = 5 ∧
    (BuildFlags flagsSampleHeader).testBit 5 = false ∧
    (BuildFlags flagsSampleHeader).testBit 6 = false :=
  C3_flags_bit_layout flagsSampleHeader (by decide)

/-- C4.  The claim (with the spec) says the four counts are read from the
distinct offsets 4, 6, 8, 10.  On the input with count fields 1, 2, 3, 4 the
embedded decoder returns Questions = 1 and Answers = 1 (both read from bytes
4..6) and never reads the authority/additional counts (left 0): the code
contradicts the spec's explicitly intended layout. -/
theorem C4_counts_divergence :
    (parseHeader c4Input).map
        (fun h => (h.Questions, h.Answers, h.Authoritative_entries, h.Resource_entries)) =
      some (1, 1, 0, 0) := by
  decide

/-- C5, counterexample.  The claim says the scenario bytes decode to a header
with QR = false and Answers = 0; the embedded decoder returns QR = true
(forced) and Answers = 1 (read from the Questions offset). -/
theorem C5_counterexample :
    parseHeader c5Bytes = some c5Decoded ∧
      c5Decoded.Response ≠ false ∧ c5Decoded.Answers ≠ 0 := by
  decide

/-- C5, amended.  The scenario bytes decode to ID = 1234, RD = true,
Questions = 1, but with Response forced true, Rescode forced NOTIMP and
Answers = 1 read from the Questions offset; re-encoding the decoded header
yields the original bytes with the QR bit and RCODE bits set in the flags
word and the answers count changed to 1. -/
theorem C5_scenario :
    parseHeader c5Bytes = some c5Decoded ∧
      c5Decoded.Id = 1234 ∧ c5Decoded.Recursion_desired = true ∧
      c5Decoded.Questions = 1 ∧ c5Decoded.Response = true ∧
      c5Decoded.Rescode = .NOTIMP ∧ c5Decoded.Answers = 1 ∧
      BuildHeader c5Decoded = [0x04, 0xD2, 0x81, 0x04, 0x00, 0x01, 0x00, 0x01, 0, 0, 0, 0] := by
  decide

/-- C7, counterexample.  The claim says a record whose `Len` differs from
`len(Data)` fails to encode; the embedded `BuildAnswer` performs no such
check and produces output (writing the declared `Len := 5` over 4 data
bytes). -/
theorem C7_counterexample :
    mismatchedRecord.Len ≠ mismatchedRecord.Data.length ∧
      BuildAnswer mismatchedRecord =
        codecraftersName ++ [0, 1, 0, 1, 0, 0, 0, 60, 0, 5, 8, 8, 8, 8] := by
  decide

/-- C7, amended.  Encoding a record always produces
`len(Name) + 2 + 2 + 4 + 2 + len(Data)` bytes; no length check is performed,
so encoding succeeds even when `R.Len` differs from `len(R.Data)`. -/
theorem C7_buildAnswer_length (r : Record) :
    (BuildAnswer r).length = r.Name.length + 2 + 2 + 4 + 2 + r.Data.length := by
  simp [BuildAnswer, PutUint16, PutUint32]
  omega

/-- C1, counterexample.  The default header is valid, yet decoding its
encoding does not return it: the decoder forces `Response := true` and
`Rescode := NOTIMP` regardless of the encoded bits. -/
theorem C1_counterexample :
    wfHeader NewDNSHeader ∧
      parseHeader (BuildHeader NewDNSHeader) ≠ some NewDNSHeader := by
  decide

/-- C1, amended.  The round-trip `parseHeader (BuildHeader h) = some h`
holds exactly on the decoder's image: valid headers with `Response` true,
`AA`/`TC`/`RA`/`Z`/`CD`/`AD` false, `Rescode` NOTIMP, `Answers` equal to
`Questions`, and zero authority/additional counts. -/
theorem C1_roundtrip (h : DNSHeader) (hwf : wfHeader h)
    (hresp : h.Response = true) (haa : h.Authoritative_answer = false)
    (htc : h.Truncated_message = false) (hra : h.Recursion_available = false)
    (hz : h.Z = false) (hrc : h.Rescode = ResultCode.NOTIMP)
    (hcd : h.Checking_disabled = false) (had : h.Authed_data = false)
    (hans : h.Answers = h.Questions) (hauth : h.Authoritative_entries = 0)
    (hres : h.Resource_entries = 0) :
    parseHeader (BuildHeader h) = some h := by
  obtain ⟨Id, rd, tc, aa, op, resp, rc, cd, ad, z, ra, q, a, ae, re⟩ := h
  obtain ⟨hid, hop, hq, -, -, -⟩ := hwf
  have hid' : Id < 65536 := hid
  have hop' : op < 16 := hop
  have hq' : q < 65536 := hq
  have h1 : resp = true := hresp
  have h2 : aa = false := haa
  have h3 : tc = false := htc
  have h4 : ra = false := hra
  have h5 : z = false := hz
  have h6 : rc = ResultCode.NOTIMP := hrc
  have h7 : cd = false := hcd
  have h8 : ad = false := had
  have h9 : a = q := hans
  have h10 : ae = 0 := hauth
  have h11 : re = 0 := hres
  subst h1 h2 h3 h4 h5 h6 h7 h8 h9 h10 h11
  exact parse_build_c1 Id op a rd hid' hop' hq'

/-- C1, witness: the amended round-trip at a concrete header. -/
theorem C1_roundtrip_witness :
    parseHeader (BuildHeader c1SampleHeader) = some c1SampleHeader :=
  C1_roundtrip c1SampleHeader (by decide) rfl rfl rfl rfl rfl rfl rfl rfl rfl rfl rfl

/-- C6.  For every byte-valued request whose header decodes (so the pipeline
produces a response), the big-endian 16-bit ID at bytes 0..2 of the response
equals the one at bytes 0..2 of the request. -/
theorem C6_response_id (data resp : List Nat) (hbytes : byteString data)
    (hresp : HandleReceivedData data = some resp) :
    bigEndianUint16 resp 0 = bigEndianUint16 data 0 := by
  obtain ⟨h, hph, hr⟩ := handleReceivedData_eq_some data resp hresp
  have h6 : 6 ≤ data.length := (parseHeader_isSome_iff data).1 (by rw [hph]; rfl)
  have hEq := parseHeader_eq_of_six_le data h6
  rw [hph] at hEq
  have hinj := Option.some.inj hEq
  subst hinj hr
  rw [bigEndianUint16_buildHeader_append_0]
  have hb0 : data.getD 0 0 < 256 := byteString_getD_lt data hbytes 0 (by omega)
  have hb1 : data.getD 1 0 < 256 := byteString_getD_lt data hbytes 1 (by omega)
  unfold bigEndianUint16
  rw [if_pos (by omega), show data.getD (0 + 1) 0 = data.getD 1 0 from rfl]
  exact congrArg some (by show (data.getD 0 0 * 256 + data.getD 1 0) / 256 % 256 * 256 +
    (data.getD 0 0 * 256 + data.getD 1 0) % 256 = _; omega)

/-- C6, witness: the scenario request produces a response whose first two
bytes match the request ID bytes. -/
theorem C6_response_id_witness :
    bigEndianUint16 ([4, 210, 129, 4, 0, 1, 0, 1, 0, 0, 0, 0] ++
        (BuildQuestion fixedQuestion ++ BuildAnswer fixedAnswer)) 0 =
      bigEndianUint16 c5Bytes 0 :=
  C6_response_id c5Bytes _ (by decide) (by decide)

/-- C8, counterexample.  On the all-zero 12-byte request the response header
advertises 0 questions and 0 answers (echoing the request), yet the body
serialized after the header contains exactly one question and one answer:
the count/section invariant fails. -/
theorem C8_counterexample :
    (HandleReceivedData zeroRequest).map
        (fun r => (bigEndianUint16 r 4, bigEndianUint16 r 6, List.drop 12 r)) =
      some (some 0, some 0, BuildQuestion fixedQuestion ++ BuildAnswer fixedAnswer) := by
  decide

/-- C8, amended.  For every byte-valued request the pipeline answers, the
body after the 12-byte header always holds exactly one question and one
answer, while the header's four counts are: the request's Questions field
(at both offsets 4 and 6) and zero (at offsets 8 and 10).  The counts match
the serialized sections only when the request's Questions field is 1. -/
theorem C8_counts (data resp : List Nat) (hbytes : byteString data)
    (hresp : HandleReceivedData data = some resp) :
    resp.drop 12 = BuildQuestion fixedQuestion ++ BuildAnswer fixedAnswer ∧
    bigEndianUint16 resp 4 = bigEndianUint16 data 4 ∧
    bigEndianUint16 resp 6 = bigEndianUint16 data 4 ∧
    bigEndianUint16 resp 8 = some 0 ∧
    bigEndianUint16 resp 10 = some 0 := by
  obtain ⟨h, hph, hr⟩ := handleReceivedData_eq_some data resp hresp
  have h6 : 6 ≤ data.length := (parseHeader_isSome_iff data).1 (by rw [hph]; rfl)
  have hEq := parseHeader_eq_of_six_le data h6
  rw [hph] at hEq
  have hinj := Option.some.inj hEq
  subst hinj hr
  have hb4 : data.getD 4 0 < 256 := byteString_getD_lt data hbytes 4 (by omega)
  have hb5 : data.getD 5 0 < 256 := byteString_getD_lt data hbytes 5 (by omega)
  refine ⟨?_, ?_, ?_, bigEndianUint16_buildHeader_append_8 _ _,
    bigEndianUint16_buildHeader_append_10 _ _⟩
  · rw [show (12 : Nat) = (BuildHeader _).length from (buildHeader_length _).symm,
      List.drop_left]
  · rw [bigEndianUint16_buildHeader_append_4]
    unfold bigEndianUint16
    rw [if_pos (by omega), show data.getD (4 + 1) 0 = data.getD 5 0 from rfl]
    exact congrArg some (by show (data.getD 4 0 * 256 + data.getD 5 0) / 256 % 256 * 256 +
      (data.getD 4 0 * 256 + data.getD 5 0) % 256 = _; omega)
  · rw [bigEndianUint16_buildHeader_append_6]
    unfold bigEndianUint16
    rw [if_pos (by omega), show data.getD (4 + 1) 0 = data.getD 5 0 from rfl]
    exact congrArg some (by show (data.getD 4 0 * 256 + data.getD 5 0) / 256 % 256 * 256 +
      (data.getD 4 0 * 256 + data.getD 5 0) % 256 = _; omega)

/-- C8, witness: the amended statement at the scenario request (whose
Questions field is 1, the only value making the counts match the body). -/
theorem C8_counts_witness :
    ([4, 210, 129, 4, 0, 1, 0, 1, 0, 0, 0, 0] ++
          (BuildQuestion fixedQuestion ++ BuildAnswer fixedAnswer)).drop 12 =
        BuildQuestion fixedQuestion ++ BuildAnswer fixedAnswer ∧
      bigEndianUint16 ([4, 210, 129, 4, 0, 1, 0, 1, 0, 0, 0, 0] ++
          (BuildQuestion fixedQuestion ++ BuildAnswer fixedAnswer)) 4 =
        bigEndianUint16 c5Bytes 4 ∧
      bigEndianUint16 ([4, 210, 129, 4, 0, 1, 0, 1, 0, 0, 0, 0] ++
          (BuildQuestion fixedQuestion ++ BuildAnswer fixedAnswer)) 6 =
        bigEndianUint16 c5Bytes 4 ∧
      bigEndianUint16 ([4, 210, 129, 4, 0, 1, 0, 1, 0, 0, 0, 0] ++
          (BuildQuestion fixedQuestion ++ BuildAnswer fixedAnswer)) 8 = some 0 ∧
      bigEndianUint16 ([4, 210, 129, 4, 0, 1, 0, 1, 0, 0, 0, 0] ++
          (BuildQuestion fixedQuestion ++ BuildAnswer fixedAnswer)) 10 = some 0 :=
  C8_counts c5Bytes _ (by decide) (by decide)

/-- C9.  Every response the pipeline produces carries, after its 12-byte
header, the same fixed body: the `codecrafters.io` type-1 class-1 question
followed by the type-1 class-1 A record with TTL 60, length 4 and data
`8.8.8.8` — 52 bytes, so every response is exactly 64 bytes, independent of
the request contents. -/
theorem C9_fixed_body (data resp : List Nat)
    (hresp : HandleReceivedData data = some resp) :
    resp.drop 12 = BuildQuestion fixedQuestion ++ BuildAnswer fixedAnswer ∧
    (BuildQuestion fixedQuestion ++ BuildAnswer fixedAnswer).length = 52 ∧
    resp.length = 64 := by
  obtain ⟨h, hph, hr⟩ := handleReceivedData_eq_some data resp hresp
  subst hr
  refine ⟨?_, by decide, ?_⟩
  · rw [show (12 : Nat) = (BuildHeader _).length from (buildHeader_length _).symm,
      List.drop_left]
  · rw [List.length_append, buildHeader_length]
    decide

/-- C9, witness: the fixed body and 64-byte length at the all-zero request. -/
theorem C9_fixed_body_witness :
    ([0, 0, 128, 4, 0, 0, 0, 0, 0, 0, 0, 0] ++
          (BuildQuestion fixedQuestion ++ BuildAnswer fixedAnswer)).drop 12 =
        BuildQuestion fixedQuestion ++ BuildAnswer fixedAnswer ∧
      (BuildQuestion fixedQuestion ++ BuildAnswer fixedAnswer).length = 52 ∧
      ([0, 0, 128, 4, 0, 0, 0, 0, 0, 0, 0, 0] ++
          (BuildQuestion fixedQuestion ++ BuildAnswer fixedAnswer)).length = 64 :=
  C9_fixed_body zeroRequest _ (by decide)

/-- C10.  On every buffer of at least 6 bytes (the decoder's entire success
domain), the parsed header has Response true, Rescode NOTIMP, AA, TC, RA
and Z false regardless of the input bits, and only Id, Opcode, RD and the
Questions/Answers counts are derived from the input bytes (with Answers
read from the Questions offset and the authority/additional counts left 0). -/
theorem C10_forced_fields (data : List Nat) (h6 : 6 ≤ data.length) :
    ∃ h, parseHeader data = some h ∧
      h.Response = true ∧ h.Rescode = ResultCode.NOTIMP ∧
      h.Authoritative_answer = false ∧ h.Truncated_message = false ∧
      h.Recursion_available = false ∧ h.Z = false ∧
      h.Checking_disabled = false ∧ h.Authed_data = false ∧
      h.Id = data.getD 0 0 * 256 + data.getD 1 0 ∧
      h.Opcode = ((data.getD 2 0 * 256 + data.getD 3 0) &&& 0x7800) >>> 11 ∧
      h.Recursion_desired = decide ((data.getD 2 0 * 256 + data.getD 3 0) &&& 0x0100 ≠ 0) ∧
      h.Questions = data.getD 4 0 * 256 + data.getD 5 0 ∧
      h.Answers = data.getD 4 0 * 256 + data.getD 5 0 ∧
      h.Authoritative_entries = 0 ∧ h.Resource_entries = 0 :=
  ⟨_, parseHeader_eq_of_six_le data h6, rfl, rfl, rfl, rfl, rfl, rfl, rfl, rfl,
    rfl, rfl, rfl, rfl, rfl, rfl, rfl⟩

/-- C10, witness: the forced fields at a concrete 6-byte buffer whose QR,
AA, TC, RA, Z and RCODE request bits are all set (and all ignored). -/
theorem C10_forced_fields_witness :
    ∃ h, parseHeader [4, 210, 151, 255, 0, 1] = some h ∧
      h.Response = true ∧ h.Rescode = ResultCode.NOTIMP ∧
      h.Authoritative_answer = false ∧ h.Truncated_message = false ∧
      h.Recursion_available = false ∧ h.Z = false ∧
      h.Checking_disabled = false ∧ h.Authed_data = false ∧
      h.Id = [4, 210, 151, 255, 0, 1].getD 0 0 * 256 + [4, 210, 151, 255, 0, 1].getD 1 0 ∧
      h.Opcode = (([4, 210, 151, 255, 0, 1].getD 2 0 * 256 + [4, 210, 151, 255, 0, 1].getD 3 0) &&& 0x7800) >>> 11 ∧
      h.Recursion_desired = decide (([4, 210, 151, 255, 0, 1].getD 2 0 * 256 + [4, 210, 151, 255, 0, 1].getD 3 0) &&& 0x0100 ≠ 0) ∧
      h.Questions = [4, 210, 151, 255, 0, 1].getD 4 0 * 256 + [4, 210, 151, 255, 0, 1].getD 5 0 ∧
      h.Answers = [4, 210, 151, 255, 0, 1].getD 4 0 * 256 + [4, 210, 151, 255, 0, 1].getD 5 0 ∧
      h.Authoritative_entries = 0 ∧ h.Resource_entries = 0 :=
  C10_forced_fields [4, 210, 151, 255, 0, 1] (by decide)

end DNS
